import Mathlib

/-!
Verification of the ECW integration adapter (`ecw_integrations.py`,
`ecw_models.py`).

The Python code is shallowly embedded as follows.

* Parsed response payloads (Python dicts / lists / strings produced by
  `json.loads`, `parse_xml_response`, `parse_progress_note_html`) are
  modelled by the inductive type `JVal`.
* Python runtime exceptions that the handler code can raise while probing
  parsed payloads (`AttributeError` from `.get` on a non-dict, `KeyError`,
  `TypeError`, `ValueError` from `int()` / `strptime`, `UnboundLocalError` /
  `NameError` from reading an unassigned local) are modelled by `PyExn`,
  and the dict/list probing primitives (`.get`, subscription, `len`,
  iteration, `int()`, `.lower()`) are modelled by total Lean functions
  returning `Except PyExn _`.
* `_handle_response` is modelled by `handle_response`.  The three decoders
  (`parse_xml_response`, `parse_progress_note_html`, `json.loads`) live in
  `ecw_utils` / the standard library, outside the two source files, so they
  are parameters of the model: each is an arbitrary function
  `String → Except Unit JVal` (a decoder either yields a parsed value or
  raises).
* Orchestrator methods are modelled as functions from an environment
  (`Env`, giving the portal response or raised error for each logical
  request) to a `FlowResult`: the returned-or-raised outcome, the ordered
  trace of network requests issued, and whether the client session was
  closed.  URL templates, auth query parameters and millisecond timestamps
  only affect the URL text, which the trace abstracts as a logical
  `ReqKind`; the vendor XML fragment generators from `ecw_utils` are
  modelled symbolically by the free constructors of `BatchPayload` /
  `ApptPayload` applied to exactly the arguments the source passes them.
-/

/-- A Python value as produced by the response decoders: the payload side
of normalized responses (JSON-style data). -/
inductive JVal where
  | jnull : JVal
  | jbool : Bool → JVal
  | jint : Int → JVal
  | jstr : String → JVal
  | jarr : List JVal → JVal
  | jobj : List (String × JVal) → JVal

/-- Python runtime exceptions relevant to the embedded code paths. -/
inductive PyExn where
  | attributeError
  | typeError
  | valueError
  | keyError
  | indexError
  | nameError
deriving DecidableEq, Repr

/-- Python whitespace as recognised by `str.strip()` (ASCII range). -/
def isPySpace (c : Char) : Bool :=
  c = ' ' || c = '\t' || c = '\n' || c = Char.ofNat 13 || c = Char.ofNat 12 || c = Char.ofNat 11

/-- Drop leading Python whitespace. -/
def dropLeadingSpace : List Char → List Char
  | [] => []
  | c :: rest => if isPySpace c then dropLeadingSpace rest else c :: rest

/-- Python `s.strip()` on the character list. -/
def pyStripChars (cs : List Char) : List Char :=
  (dropLeadingSpace (dropLeadingSpace cs).reverse).reverse

/-- Python `s.strip()`. -/
def pyStrip (s : String) : String :=
  ⟨pyStripChars s.toList⟩

/-- Boolean list-prefix test. -/
def prefixMatches : List Char → List Char → Bool
  | [], _ => true
  | _ :: _, [] => false
  | a :: as, b :: bs => a = b && prefixMatches as bs

/-- Python `s.startswith(pre)`. -/
def pyStartsWith (s pre : String) : Bool :=
  prefixMatches pre.toList s.toList

/-- Python `s.strip().startswith(pre)`, the test `_handle_response` applies
to the response text. -/
def stripStartsWith (s pre : String) : Bool :=
  prefixMatches pre.toList (pyStripChars s.toList)

/-- ASCII lower-casing of one character. -/
def pyCharLower (c : Char) : Char :=
  if 65 ≤ c.toNat && c.toNat ≤ 90 then Char.ofNat (c.toNat + 32) else c

/-- Python `s.lower()` (ASCII). -/
def strLower (s : String) : String :=
  ⟨s.toList.map pyCharLower⟩

/-- Split a character list at commas. -/
def splitCommaAux : List Char → List Char → List (List Char)
  | [], acc => [acc.reverse]
  | c :: rest, acc =>
    if c = ',' then acc.reverse :: splitCommaAux rest []
    else splitCommaAux rest (c :: acc)

/-- Python `s.split(",")`: always a non-empty list of pieces. -/
def pySplitComma (s : String) : List String :=
  (splitCommaAux s.toList []).map (fun cs => ⟨cs⟩)

/-- Python `lst[0]` on a split result (split never returns an empty list). -/
def firstPiece (l : List String) : String :=
  match l with
  | [] => ""
  | s :: _ => s

/-- Python `lst[-1]` on a split result. -/
def lastPiece (l : List String) : String :=
  match l with
  | [] => ""
  | [s] => s
  | _ :: rest => lastPiece rest

/-- Python truthiness (`bool(v)`) for the modelled values. -/
def pyTruthy : JVal → Bool
  | .jnull => false
  | .jbool b => b
  | .jint n => n != 0
  | .jstr s => !s.isEmpty
  | .jarr xs => !xs.isEmpty
  | .jobj fs => !fs.isEmpty

/-- Python `v.get(key, dflt)`: defined on dicts, `AttributeError` on any
other value. -/
def pyGet (v : JVal) (key : String) (dflt : JVal) : Except PyExn JVal :=
  match v with
  | .jobj fs =>
    match fs.lookup key with
    | some w => .ok w
    | none => .ok dflt
  | _ => .error .attributeError

/-- Python `v[key]` for a string key: `KeyError` when the key is absent
from a dict, `TypeError` on non-dicts. -/
def pySubscript (v : JVal) (key : String) : Except PyExn JVal :=
  match v with
  | .jobj fs =>
    match fs.lookup key with
    | some w => .ok w
    | none => .error .keyError
  | _ => .error .typeError

/-- Python `v[i]` for a non-negative index. -/
def pyIndex (v : JVal) (i : Nat) : Except PyExn JVal :=
  match v with
  | .jarr xs =>
    match xs.get? i with
    | some w => .ok w
    | none => .error .indexError
  | .jstr s =>
    match s.toList.get? i with
    | some c => .ok (.jstr c.toString)
    | none => .error .indexError
  | _ => .error .typeError

/-- Python `len(v)`. -/
def pyLen (v : JVal) : Except PyExn Nat :=
  match v with
  | .jstr s => .ok s.length
  | .jarr xs => .ok xs.length
  | .jobj fs => .ok fs.length
  | _ => .error .typeError

/-- Python iteration `for x in v`: lists yield elements, dicts yield keys,
strings yield one-character strings, anything else raises `TypeError`. -/
def pyIter (v : JVal) : Except PyExn (List JVal) :=
  match v with
  | .jarr xs => .ok xs
  | .jobj fs => .ok (fs.map (fun p => .jstr p.1))
  | .jstr s => .ok (s.toList.map (fun c => .jstr c.toString))
  | _ => .error .typeError

/-- Python `v.lower()`: defined on strings only. -/
def pyLower (v : JVal) : Except PyExn String :=
  match v with
  | .jstr s => .ok (strLower s)
  | _ => .error .attributeError

/-- Parse the digit run of a decimal literal. -/
def digitsToNat : List Char → Option Nat
  | [] => none
  | cs => cs.foldl
      (fun acc c =>
        match acc with
        | none => none
        | some n => if c.isDigit then some (n * 10 + (c.toNat - 48)) else none)
      (some 0)

/-- Python `int(s)` on a string: surrounding whitespace and one sign are
accepted, otherwise the text must be all digits; `ValueError` otherwise. -/
def pyIntOfString (s : String) : Except PyExn Int :=
  match pyStripChars s.toList with
  | [] => .error .valueError
  | c :: rest =>
    if c = '-' then
      match digitsToNat rest with
      | some n => .ok (-(n : Int))
      | none => .error .valueError
    else if c = '+' then
      match digitsToNat rest with
      | some n => .ok (n : Int)
      | none => .error .valueError
    else
      match digitsToNat (c :: rest) with
      | some n => .ok (n : Int)
      | none => .error .valueError

/-- Python `int(v)`. -/
def pyInt (v : JVal) : Except PyExn Int :=
  match v with
  | .jint n => .ok n
  | .jbool b => .ok (if b then 1 else 0)
  | .jstr s => pyIntOfString s
  | _ => .error .typeError

/-- A single apostrophe, as used by Python `repr` for strings. -/
def squote : String := (Char.ofNat 39).toString

mutual

/-- Python `repr(v)` (string escaping inside reprs is not modelled). -/
def pyRepr : JVal → String
  | .jnull => "None"
  | .jbool b => if b then "True" else "False"
  | .jint n => toString n
  | .jstr s => squote ++ s ++ squote
  | .jarr xs => "[" ++ pyReprList xs ++ "]"
  | .jobj fs => "\x7b" ++ pyReprObj fs ++ "\x7d"

/-- Comma-separated reprs of list elements. -/
def pyReprList : List JVal → String
  | [] => ""
  | [v] => pyRepr v
  | v :: rest => pyRepr v ++ ", " ++ pyReprList rest

/-- Comma-separated `key: value` reprs of dict entries. -/
def pyReprObj : List (String × JVal) → String
  | [] => ""
  | [(k, v)] => squote ++ k ++ squote ++ ": " ++ pyRepr v
  | (k, v) :: rest => squote ++ k ++ squote ++ ": " ++ pyRepr v ++ ", " ++ pyReprObj rest

end

/-- Python `str(v)` (used by f-string interpolation and `str(...)`). -/
def pyStr : JVal → String
  | .jstr s => s
  | v => pyRepr v

/-- The decoder classes `_handle_response` can dispatch to. -/
inductive BodyClass where
  | xml
  | html
  | json
  | passthrough
deriving DecidableEq, Repr

/-- The decoder-selection predicates of `_handle_response` (lines 83-91):
the first matching test of the stripped body text wins, in source order. -/
def classify (text : String) : BodyClass :=
  if stripStartsWith text "<?xml" || stripStartsWith text "<root" then .xml
  else if stripStartsWith text "<HTML>" then .html
  else if stripStartsWith text "\x7b" then .json
  else .passthrough

/-- The tolerant-normalization payload built on decoder failure (line 97):
`\x7b"error": \x7b"message": "Parsing error", "raw": <original text>\x7d\x7d`. -/
def parseErrorPayload (text : String) : JVal :=
  .jobj [("error", .jobj [("message", .jstr "Parsing error"), ("raw", .jstr text)])]

/-- Run the decoder selected by `classify` (the `parse_xml_response` /
`parse_progress_note_html` / `json.loads` branches).  The decoders
themselves live outside the two source files and are parameters. -/
def selectedDecode (xmlDec htmlDec jsonDec : String → Except Unit JVal)
    (text : String) : Except Unit JVal :=
  match classify text with
  | .xml => xmlDec text
  | .html => htmlDec text
  | .json => jsonDec text
  | .passthrough => .ok .jnull

/-- Decoder outcome to `(parsed_data, closed the session in the except arm)`:
on failure the payload degrades to `parseErrorPayload` and `close_session`
is awaited (lines 93-97). -/
def parsedOrError (d : Except Unit JVal) (text : String) : JVal × Bool :=
  match d with
  | .ok v => (v, false)
  | .error _ => (parseErrorPayload text, true)

/-- The parsed data `_handle_response` works with for a non-passthrough
body. -/
def parsedDataOf (xmlDec htmlDec jsonDec : String → Except Unit JVal)
    (text : String) : JVal :=
  (parsedOrError (selectedDecode xmlDec htmlDec jsonDec text) text).1

/-- Lines 102-103: `error_message = parsed.get("error", \x7b\x7d).get("message",
"Unknown error")` and `error_code = parsed.get("error", \x7b\x7d).get("code",
str(status))`; each `.get` on a non-dict raises `AttributeError`. -/
def extractMsgCode (parsed : JVal) (status : Nat) : Except PyExn (JVal × JVal) := do
  let e1 ← pyGet parsed "error" (.jobj [])
  let m ← pyGet e1 "message" (.jstr "Unknown error")
  let e2 ← pyGet parsed "error" (.jobj [])
  let c ← pyGet e2 "code" (.jstr (toString status))
  pure (m, c)

/-- How `_handle_response` terminates: a normal return, a raised
`HTTPException(status_code, detail)`, a raised
`IntegrationAPIError(integration, message, status, code)`, or an unhandled
Python exception escaping the function. -/
inductive HandleOutcome where
  | ret : JVal → HandleOutcome
  | httpExc : Nat → JVal → HandleOutcome
  | apiErr : String → String → Nat → JVal → HandleOutcome
  | pyExn : PyExn → HandleOutcome

/-- Full observable behaviour of one `_handle_response` call: the
termination outcome, which decoder branch ran (if any), and whether
`close_session` was awaited inside the call. -/
structure HandleResult where
  outcome : HandleOutcome
  decoderUsed : Option BodyClass
  sessionClosed : Bool

/-- `ECWIntegration._handle_response` (lines 76-125), parameterized by the
three decoders.  The passthrough branch returns the raw text from inside
the `try` block, before the status-code policy; the `integration_name`
passed to `IntegrationAPIError` is the `"ecw"` set in `__init__`. -/
def handle_response (xmlDec htmlDec jsonDec : String → Except Unit JVal)
    (text : String) (status : Nat) : HandleResult :=
  match classify text with
  | .passthrough => ⟨.ret (.jstr text), none, false⟩
  | cls =>
    let pc := parsedOrError (selectedDecode xmlDec htmlDec jsonDec text) text
    let oc : HandleOutcome × Bool :=
      if 200 ≤ status ∧ status < 300 then (.ret pc.1, pc.2)
      else
        match extractMsgCode pc.1 status with
        | .error e => (.pyExn e, pc.2)
        | .ok (m, c) =>
          if 400 ≤ status ∧ status < 500 then (.httpExc status pc.1, true)
          else if 500 ≤ status then
            (.apiErr "ecw"
              ("Downstream server error (translated to HTTP 501): " ++ pyStr m)
              501 c, true)
          else
            (.apiErr "ecw" (pyStr m ++ " (HTTP " ++ toString status ++ ")")
              status c, true)
    ⟨oc.1, some cls, oc.2⟩

example :
    handle_response (fun _ => .error ()) (fun _ => .error ()) (fun _ => .error ())
      "true" 404 = ⟨.ret (.jstr "true"), none, false⟩ := rfl

example :
    handle_response (fun _ => .error ()) (fun _ => .error ())
      (fun _ => .ok (.jobj [("error", .jstr "x")]))
      "\x7b\"error\": \"x\"\x7d" 404 = ⟨.pyExn .attributeError, some .json, false⟩ := rfl

example :
    handle_response (fun _ => .error ()) (fun _ => .error ()) (fun _ => .error ())
      "<root" 503 =
      ⟨.apiErr "ecw" "Downstream server error (translated to HTTP 501): Parsing error"
        501 (.jstr "503"), some .xml, true⟩ := rfl

/-- Symbolic stand-ins for the vendor XML fragments built by the
`generate_*` helpers of `ecw_utils` (outside the two source files): a free
constructor applied to exactly the arguments the source passes. -/
inductive BatchPayload where
  | historyFormData : List JVal → String → BatchPayload
  | encounterFlag : String → String → Bool → BatchPayload
  | medhxFlag : String → Bool → BatchPayload
  | allergyFlagsFrag : String → Bool → String → BatchPayload
  | socialNotesFrag : String → String → BatchPayload

/-- One entry of the client-side batch envelope: the logical target URL
key from `ECW_URLS` and the `FormData` payload queued for it. -/
structure BatchItem where
  urlKey : String
  payload : BatchPayload

/-- `AllergyItemToAdd` (ecw_models.py). -/
structure AllergyItemToAdd where
  drug_name : String
  rx_id : String
  reaction_description : String
  allergy_type : String
  status : String
  criticality : String
  onset_date : String

/-- The arguments of `create_new_appointment_formdata_v2` (the appointment
write payload, built symbolically). -/
structure ApptPayload where
  patientId : JVal
  dateStr : String
  startTimeStr : String
  endTimeStr : String
  visitTypeName : String
  reasonVal : JVal
  doctorId : JVal
  statusCodeStr : String
  facilityIdStr : String
  diagnosisStr : Option String
  patientEmailStr : Option String
  trUserIdStr : String
  resourceId : JVal
  posVal : JVal

/-- The logical network requests an orchestrator flow can issue, with the
arguments that distinguish them (URL templates, auth material and
timestamps are abstracted away). -/
inductive ReqKind where
  | getPatientsReq : String → String → ReqKind
  | getApptForm : ReqKind
  | getFacilitiesReq : ReqKind
  | getProviderReq : String → ReqKind
  | getReasonsReq : ReqKind
  | postAppointmentCreate : ApptPayload → ReqKind
  | postAppointmentUpdate : String → ApptPayload → ReqKind
  | getSurgicalHistory : String → ReqKind
  | getHospitalizationHistory : String → ReqKind
  | batchPost : List BatchItem → ReqKind
  | postAppointmentsList : String → Int → String → String → ReqKind
  | postFamilyHistoryNote : String → String → ReqKind
  | allergyQuickSearch : String → String → ReqKind
  | postMedicalHistoryDirect : String → String → ReqKind
  | postAllergyItem : String → String → AllergyItemToAdd → Nat → ReqKind

/-- What one awaited `_make_request` can raise into an orchestrator flow:
an `HTTPException`, an `IntegrationAPIError`, or an unhandled Python
exception (this also covers local Python errors raised by the flow's own
code between requests). -/
inductive FlowErr where
  | http : Nat → JVal → FlowErr
  | api : String → Nat → FlowErr
  | pyErr : PyExn → FlowErr

/-- The environment: for each issued request, the parsed value
`_make_request` returns, or the error it raises. -/
structure Env where
  respond : ReqKind → Except FlowErr JVal

/-- Ordered trace of issued requests. -/
abbrev Trace := List ReqKind

/-- Intermediate state of a flow: a value or a raised error, together with
the requests issued so far (kept on the error path too). -/
inductive FlowStep (α : Type) where
  | ok : α → Trace → FlowStep α
  | err : FlowErr → Trace → FlowStep α

/-- Flow computations: trace-passing with raised-error short-circuiting. -/
def FlowM (α : Type) : Type := Trace → FlowStep α

/-- Return for `FlowM`. -/
def FlowM.pure (a : α) : FlowM α := fun tr => .ok a tr

/-- Sequencing for `FlowM`: a raised error skips the continuation. -/
def FlowM.bind (m : FlowM α) (f : α → FlowM β) : FlowM β := fun tr =>
  match m tr with
  | .ok a tr2 => f a tr2
  | .err e tr2 => .err e tr2

instance : Monad FlowM where
  pure := FlowM.pure
  bind := FlowM.bind

/-- Issue one request through `_make_request`: it is appended to the trace
and the environment decides its outcome. -/
def doRequest (env : Env) (r : ReqKind) : FlowM JVal := fun tr =>
  match env.respond r with
  | .ok v => .ok v (tr ++ [r])
  | .error e => .err e (tr ++ [r])

/-- `raise` inside a flow. -/
def raiseF (e : FlowErr) : FlowM α := fun tr => .err e tr

/-- Lift a pure Python computation that may raise. -/
def liftPy (x : Except PyExn α) : FlowM α := fun tr =>
  match x with
  | .ok a => .ok a tr
  | .error e => .err (FlowErr.pyErr e) tr

/-- A `try: ... except Exception: fallback` block around a sub-computation
(any raised error is swallowed; requests it issued stay in the trace). -/
def attempt (m : FlowM α) (fallback : α) : FlowM α := fun tr =>
  match m tr with
  | .ok a tr2 => .ok a tr2
  | .err _ tr2 => .ok fallback tr2

/-- Observable behaviour of one public orchestrator method: the
returned-or-raised outcome, the request trace, and whether the client
session was closed by the time the method finished. -/
structure FlowResult (α : Type) where
  result : Except FlowErr α
  requests : Trace
  sessionClosed : Bool

/-- Run a flow body under the `try/except/finally` wrapper every public
method uses: the `finally` closes the client session on every exit path. -/
def runFlow (m : FlowM α) : FlowResult α :=
  match m [] with
  | .ok a tr => ⟨.ok a, tr, true⟩
  | .err e tr => ⟨.error e, tr, true⟩

/-- Lines 410-416 of `create_appointment`: the patient-search response is
probed with `.get("patients")`; an untruthy list means "not found",
otherwise `patients[0]["id"]` is read. -/
def extract_patient_id (resp : JVal) : Except PyExn (Option JVal) := do
  let pats ← pyGet resp "patients" .jnull
  if pyTruthy pats then do
    let first ← pyIndex pats 0
    let pid ← pySubscript first "id"
    pure (some pid)
  else
    pure none

/-- `ECWIntegration.validate_provider` (lines 353-363) applied to the
parsed `get_provider` response: the first `result` entry's `id`, or
`None`. -/
def validate_provider (resp : JVal) : Except PyExn (Option JVal) :=
  if pyTruthy resp then do
    let res ← pyGet resp "result" .jnull
    let n ← pyLen res
    if 0 < n then do
      let res2 ← pyGet resp "result" .jnull
      let first ← pyIndex res2 0
      let pid ← pySubscript first "id"
      pure (some pid)
    else
      pure none
  else
    pure none

/-- Loop of `validate_reason`: case-insensitive scan over the reason list,
last match winning. -/
def reasonScan : List JVal → String → Option JVal → Except PyExn (Option JVal)
  | [], _, acc => .ok acc
  | r :: rest, client, acc => do
    let nm ← pySubscript r "name"
    let nmLower ← pyLower nm
    if nmLower = strLower client then reasonScan rest client (some nm)
    else reasonScan rest client acc

/-- `ECWIntegration.validate_reason` (lines 365-372) applied to the parsed
`get_reasons` response. -/
def validate_reason (resp : JVal) (reason_client : String) : Except PyExn (Option JVal) := do
  let rs ← pySubscript resp "reasons"
  let items ← pyIter rs
  reasonScan items reason_client none

/-- Loop of `validate_facilities`: case-insensitive scan collecting
`(facility["Id"], facility["POS"])`, last match winning. -/
def facilityScan : List JVal → String → Option (JVal × JVal) →
    Except PyExn (Option (JVal × JVal))
  | [], _, acc => .ok acc
  | f :: rest, name, acc => do
    let nm ← pySubscript f "Name"
    let nmLower ← pyLower nm
    if nmLower = strLower name then do
      let fid ← pySubscript f "Id"
      let pos ← pySubscript f "POS"
      facilityScan rest name (some (fid, pos))
    else
      facilityScan rest name acc

/-- `ECWIntegration.validate_facilities` (lines 384-393) applied to the
parsed `get_facilities` response. -/
def validate_facilities (resp : JVal) (facility_name : String) :
    Except PyExn (Option (JVal × JVal)) := do
  let fl ← pySubscript resp "facilities"
  let items ← pyIter fl
  facilityScan items facility_name none

/-- One row of the static visit-type table. -/
structure VisitTypeEntry where
  vtDescription : String
  vtName : String

/-- Modelled from the spec: `reduced_visit_types` is a static local table
living in `ecw_config`, outside the two source files ("match against a
static local table mapping human-readable description to internal
visit-type code; no network call"), so the table rows are a parameter;
`validate_visit_type` (lines 374-382) scans it case-insensitively, last
match winning. -/
def validate_visit_type (table : List VisitTypeEntry) (visit_type : String) : Option String :=
  table.foldl
    (fun acc v => if strLower v.vtDescription = strLower visit_type then some v.vtName else acc)
    none

/-- Python `a or b` for an optional string (`None` and `""` fall back). -/
def pyOrStr (a : Option String) (b : String) : String :=
  match a with
  | some s => if s.isEmpty then b else s
  | none => b

/-- All characters are decimal digits. -/
def allDigits (cs : List Char) : Bool := cs.all Char.isDigit

/-- Numeric value of a digit run. -/
def natOfDigits (cs : List Char) : Nat :=
  cs.foldl (fun n c => n * 10 + (c.toNat - 48)) 0

/-- Gregorian leap year. -/
def isLeapYear (y : Nat) : Bool :=
  y % 4 == 0 && (y % 100 != 0 || y % 400 == 0)

/-- Days in a month. -/
def daysInMonth (y m : Nat) : Nat :=
  if m = 2 then (if isLeapYear y then 29 else 28)
  else if m = 4 || m = 6 || m = 9 || m = 11 then 30
  else 31

/-- Split a character list at a separator character. -/
def splitCharAux (sep : Char) : List Char → List Char → List (List Char)
  | [], acc => [acc.reverse]
  | c :: rest, acc =>
    if c = sep then acc.reverse :: splitCharAux sep rest []
    else splitCharAux sep rest (c :: acc)

/-- Whether `datetime.strptime(s, "%m/%d/%Y")` (line 419) succeeds: month
and day are 1-2 digit fields in range, the year exactly four digits, and
the day must exist in that month. -/
def strptimeValidMDY (s : String) : Bool :=
  match splitCharAux '/' s.toList [] with
  | [ms, ds, ys] =>
    allDigits ms && allDigits ds && allDigits ys &&
    decide (1 ≤ ms.length) && decide (ms.length ≤ 2) &&
    decide (1 ≤ natOfDigits ms) && decide (natOfDigits ms ≤ 12) &&
    decide (1 ≤ ds.length) && decide (ds.length ≤ 2) &&
    decide (1 ≤ natOfDigits ds) &&
    decide (ys.length = 4) && decide (1 ≤ natOfDigits ys) &&
    decide (natOfDigits ds ≤ daysInMonth (natOfDigits ys) (natOfDigits ms))
  | _ => false

/-- `AppointmentRequest` (ecw_models.py). -/
structure AppointmentRequest where
  patient_name : String
  facility_name : String
  date : String
  start_time : String
  end_time : String
  provider : String
  resource : Option String
  email : Option String
  reason : String
  diagnosis : Option String
  visit_type : String
  visit_status : String
  encounterId : Option String

/-- `ECWIntegration.create_appointment` (lines 395-543): patient lookup,
the prime-the-form GET, the facility/provider/resource/reason/visit-type
validation chain with its 404 aborts, then the create-or-update write
POST.  `trUserId` stands for `self.auth_tokens.TrUserId`. -/
def create_appointment (visitTable : List VisitTypeEntry) (trUserId : String)
    (env : Env) (req : AppointmentRequest) : FlowResult JVal :=
  runFlow do
    let namePieces := pySplitComma req.patient_name
    let presp ← doRequest env (.getPatientsReq (firstPiece namePieces) (lastPiece namePieces))
    let pidOpt ← liftPy (extract_patient_id presp)
    match pidOpt with
    | none =>
      raiseF (.http 404
        (.jobj [("message", .jstr ("Patient: " ++ req.patient_name ++ " not found"))]))
    | some pid =>
      if strptimeValidMDY req.date then do
        let _ ← doRequest env .getApptForm
        let fresp ← doRequest env .getFacilitiesReq
        let facOpt ← liftPy (validate_facilities fresp req.facility_name)
        match facOpt with
        | none => raiseF (.http 404 (.jobj [("message", .jstr "Facility not found")]))
        | some fac => do
          let prsp ← doRequest env (.getProviderReq (strLower req.provider))
          let provOpt ← liftPy (validate_provider prsp)
          match provOpt with
          | none => raiseF (.http 404 (.jobj [("message", .jstr "Provider not found")]))
          | some providerId => do
            let resourceName := pyOrStr req.resource req.provider
            let rrsp ← doRequest env (.getProviderReq (strLower resourceName))
            let resOpt ← liftPy (validate_provider rrsp)
            match resOpt with
            | none => raiseF (.http 404 (.jobj [("message", .jstr "Resource not found")]))
            | some resourceId => do
              let rsps ← doRequest env .getReasonsReq
              let reasonOpt ← liftPy (validate_reason rsps req.reason)
              match reasonOpt with
              | none => raiseF (.http 404 (.jobj [("message", .jstr "Reason not found")]))
              | some reasonName =>
                match validate_visit_type visitTable req.visit_type with
                | none =>
                  raiseF (.http 404 (.jobj [("message", .jstr "Visit Type not found")]))
                | some visitType =>
                  let payload : ApptPayload :=
                    ⟨pid, req.date, req.start_time, req.end_time, visitType,
                      reasonName, providerId, req.visit_status, pyStr fac.1,
                      req.diagnosis, req.email, trUserId, resourceId, fac.2⟩
                  match req.encounterId with
                  | some encId =>
                    if encId.isEmpty then doRequest env (.postAppointmentCreate payload)
                    else doRequest env (.postAppointmentUpdate encId payload)
                  | none => doRequest env (.postAppointmentCreate payload)
      else
        raiseF (.pyErr .valueError)

/-- `NewHistoryItem` (ecw_models.py). -/
structure NewHistoryItem where
  reason : String
  date : String
  cptcode : Option String

/-- `AddSurgicalAndHospitilizationItemsRequest` (ecw_models.py). -/
structure AddSurgicalAndHospitilizationItemsRequest where
  encounter_id : String
  patient_id : String
  new_surgical_items : List NewHistoryItem
  new_hospitalization_items : List NewHistoryItem

/-- Lines 611-619 / 711-719: scan of the existing history items updating
`current_max_idx` from each truthy `displayIndex` that parses to a larger
integer. -/
def scanMaxIdx : List JVal → Int → Except PyExn Int
  | [], m => .ok m
  | it :: rest, m => do
    let dv ← pyGet it "displayIndex" .jnull
    if pyTruthy dv then do
      let k ← pySubscript it "displayIndex"
      let n ← pyInt k
      if m < n then scanMaxIdx rest n else scanMaxIdx rest m
    else
      scanMaxIdx rest m

/-- Python `new_item.cptcode if new_item.cptcode else ""`. -/
def cptOrEmpty (c : Option String) : String :=
  match c with
  | some s => if s.isEmpty then "" else s
  | none => ""

/-- Lines 621-630: the new surgical dicts appended after the existing
items, with display indices `max + 1, max + 2, ...` stringified. -/
def newSurgicalDicts : List NewHistoryItem → Int → List JVal
  | [], _ => []
  | it :: rest, m =>
    .jobj [("reason", .jstr it.reason), ("date", .jstr it.date),
           ("cptcode", .jstr (cptOrEmpty it.cptcode)),
           ("displayIndex", .jstr (toString (m + 1)))] :: newSurgicalDicts rest (m + 1)

/-- Lines 721-729: the new hospitalization dicts (no `cptcode` key). -/
def newHospDicts : List NewHistoryItem → Int → List JVal
  | [], _ => []
  | it :: rest, m =>
    .jobj [("reason", .jstr it.reason), ("date", .jstr it.date),
           ("displayIndex", .jstr (toString (m + 1)))] :: newHospDicts rest (m + 1)

/-- `ECWIntegration.update_history_add_only` (lines 563-811): for each
non-empty new-item list, fetch the existing list (failures degrade to an
empty list), merge with freshly computed sequential display indices, and
queue the data-set entry plus the section-changed flag entry; an empty
envelope short-circuits with the no-op message, otherwise one batch POST
is issued. -/
def update_history_add_only (env : Env)
    (rd : AddSurgicalAndHospitilizationItemsRequest) : FlowResult JVal :=
  runFlow do
    let surgBatch ←
      if rd.new_surgical_items.isEmpty then FlowM.pure []
      else do
        let existingVal ← attempt
          (do
            let v ← doRequest env (.getSurgicalHistory rd.encounter_id)
            liftPy (pyGet v "surgical_history" (.jarr [])))
          (.jarr [])
        let exList ← liftPy (pyIter existingVal)
        let maxIdx ← liftPy (scanMaxIdx exList 0)
        let combined := exList ++ newSurgicalDicts rd.new_surgical_items maxIdx
        pure [BatchItem.mk "set_surgical_history" (.historyFormData combined "surgical"),
              BatchItem.mk "set_encounter_details"
                (.encounterFlag rd.encounter_id "Surgical History" true)]
    let hospBatch ←
      if rd.new_hospitalization_items.isEmpty then FlowM.pure []
      else do
        let existingVal ← attempt
          (do
            let v ← doRequest env (.getHospitalizationHistory rd.encounter_id)
            liftPy (pyGet v "hospitalization_history" (.jarr [])))
          (.jarr [])
        let exList ← liftPy (pyIter existingVal)
        let maxIdx ← liftPy (scanMaxIdx exList 0)
        let combined := exList ++ newHospDicts rd.new_hospitalization_items maxIdx
        let base := [BatchItem.mk "set_hospitalization_history"
                      (.historyFormData combined "hospitalization")]
        let hospChanged := true
        pure (if hospChanged then
                base ++ [BatchItem.mk "set_encounter_details"
                          (.encounterFlag rd.encounter_id "Hospitalization" true)]
              else base)
    let batchItems := surgBatch ++ hospBatch
    if batchItems.isEmpty then
      FlowM.pure (.jobj [("message", .jstr "No new history items to add.")])
    else
      doRequest env (.batchPost batchItems)

/-- `UpdateMedHxAllergyRequest` (ecw_models.py). -/
structure UpdateMedHxAllergyRequest where
  encounter_id : String
  patient_id : String
  medical_history_text : Option String
  new_allergies : List AllergyItemToAdd

/-- Lines 1087-1124: sequential per-item allergy submissions, display
index starting at 1, accumulating `\x7b"item": drug_name, "response": ...\x7d`
records. -/
def submitAllergyItems (env : Env) (patientId encounterId : String) :
    List AllergyItemToAdd → Nat → FlowM (List JVal)
  | [], _ => FlowM.pure []
  | a :: rest, idx => do
    let r ← doRequest env (.postAllergyItem patientId encounterId a idx)
    let more ← submitAllergyItems env patientId encounterId rest (idx + 1)
    pure (.jobj [("item", .jstr a.drug_name), ("response", r)] :: more)

/-- `ECWIntegration.update_med_hx_and_allergies` (lines 973-1131).  The
local `headers_direct_post` is assigned only inside the
`medical_history_text is not None` branch (lines 1010-1013) but read again
at the flags-batch call (line 1082) and at each per-allergy call (line
1119); `headersBound` tracks whether it has been assigned, and reading it
unassigned raises Python `UnboundLocalError` (a `NameError`). -/
def update_med_hx_and_allergies (env : Env) (rd : UpdateMedHxAllergyRequest) :
    FlowResult JVal :=
  runFlow do
    let medPart ←
      match rd.medical_history_text with
      | some txt => do
        let r ← doRequest env (.postMedicalHistoryDirect rd.encounter_id txt)
        FlowM.pure [("medical_history_set", r)]
      | none => FlowM.pure []
    let headersBound := rd.medical_history_text.isSome
    let noReported :=
      match rd.medical_history_text with
      | none => true
      | some t => (pyStripChars t.toList).isEmpty
    let flagItems : List BatchItem :=
      [BatchItem.mk "set_encounter_details" (.medhxFlag rd.encounter_id noReported),
       BatchItem.mk "set_encounter_details"
         (.allergyFlagsFrag rd.encounter_id (!rd.new_allergies.isEmpty) "N")]
    let flagPart ←
      if flagItems.isEmpty then FlowM.pure []
      else
        if headersBound then do
          let fr ← doRequest env (.batchPost flagItems)
          FlowM.pure [("flags_batch_set", fr)]
        else
          raiseF (.pyErr .nameError)
    let allergyPart ←
      if rd.new_allergies.isEmpty then FlowM.pure []
      else
        if headersBound then do
          let items ← submitAllergyItems env rd.patient_id rd.encounter_id rd.new_allergies 1
          FlowM.pure [("set_allergies", JVal.jarr items)]
        else
          raiseF (.pyErr .nameError)
    FlowM.pure (.jobj (medPart ++ flagPart ++ allergyPart))

/-- `GetAppointmentsRequest` (ecw_models.py). -/
structure GetAppointmentsRequest where
  eDate : Option String
  maxCount : Option Int
  providerId : String
  facilityId : String

/-- Python `x or d` for an optional int (`None` and `0` fall back). -/
def pyOrInt (a : Option Int) (b : Int) : Int :=
  match a with
  | some n => if n = 0 then b else n
  | none => b

/-- `ECWIntegration.get_appointments` (lines 237-289); `today` stands for
`get_default_date()`. -/
def get_appointments (env : Env) (today : String) (req : GetAppointmentsRequest) :
    FlowResult JVal :=
  runFlow do
    let eDate := pyOrStr req.eDate today
    let maxCount := pyOrInt req.maxCount 100
    doRequest env (.postAppointmentsList eDate maxCount req.providerId req.facilityId)

/-- `AddFamilyHistoryNoteRequest` (ecw_models.py). -/
structure AddFamilyHistoryNoteRequest where
  encounter_id : String
  patient_id : String
  plain_text_notes : String

/-- `ECWIntegration.add_family_history_note` (lines 813-864): one direct
POST, then the string-emptiness post-processing of lines 851-859. -/
def add_family_history_note (env : Env) (rd : AddFamilyHistoryNoteRequest) :
    FlowResult JVal :=
  runFlow do
    let resp ← doRequest env (.postFamilyHistoryNote rd.encounter_id rd.plain_text_notes)
    match resp with
    | .jstr s =>
      if (pyStripChars s.toList).isEmpty then
        FlowM.pure (.jobj [("status", .jstr "success"),
          ("message", .jstr "Family history note likely saved (empty response received).")])
      else
        FlowM.pure (.jobj [("status", .jstr "unknown"), ("raw_response", resp)])
    | _ => FlowM.pure (.jobj [("status", .jstr "unknown"), ("raw_response", resp)])

/-- `AddSocialHistoryNoteRequest` (ecw_models.py). -/
structure AddSocialHistoryNoteRequest where
  encounter_id : String
  patient_id : String
  plain_text_notes : String

/-- `ECWIntegration.add_social_history_note` (lines 866-930): a batch
envelope holding the single social-notes entry, submitted in one POST. -/
def add_social_history_note (env : Env) (rd : AddSocialHistoryNoteRequest) :
    FlowResult JVal :=
  runFlow do
    doRequest env (.batchPost
      [BatchItem.mk "set_annual_notes" (.socialNotesFrag rd.encounter_id rd.plain_text_notes)])

/-- `ECWIntegration.search_allergies` (lines 932-971). -/
def search_allergies (env : Env) (search_text : String) (n_limit : String) :
    FlowResult JVal :=
  runFlow do
    doRequest env (.allergyQuickSearch search_text n_limit)

/-- When the body classifies as XML, the selected decoder is the XML one. -/
theorem selectedDecode_eq_xml (x h j : String → Except Unit JVal) (text : String)
    (hcl : classify text = .xml) : selectedDecode x h j text = x text := by
  unfold selectedDecode
  rw [hcl]

/-- C1: for every 2xx response whose body selects a decoder and whose
decoding fails, `_handle_response` returns (does not raise) the
ParseError-shaped payload with message "Parsing error" and the original
response text, verbatim, in its raw-body field; the decoder's exception is
swallowed. -/
theorem c1_parse_failure_on_2xx_returns_parse_error
    (xmlDec htmlDec jsonDec : String → Except Unit JVal) (text : String) (status : Nat)
    (hlo : 200 ≤ status) (hhi : status < 300)
    (hcl : classify text ≠ .passthrough)
    (hdec : selectedDecode xmlDec htmlDec jsonDec text = .error ()) :
    handle_response xmlDec htmlDec jsonDec text status =
      ⟨.ret (parseErrorPayload text), some (classify text), true⟩ := by
  unfold handle_response
  cases hc : classify text with
  | passthrough => exact absurd hc hcl
  | xml => simp [hdec, parsedOrError, hlo, hhi]
  | html => simp [hdec, parsedOrError, hlo, hhi]
  | json => simp [hdec, parsedOrError, hlo, hhi]

/-- Witness for C1 at a concrete input. -/
theorem c1_parse_failure_on_2xx_returns_parse_error_witness :
    handle_response (fun _ => .error ()) (fun _ => .error ()) (fun _ => .error ())
      "<?xml version" 200 =
      ⟨.ret (parseErrorPayload "<?xml version"), some .xml, true⟩ := by
  have h := c1_parse_failure_on_2xx_returns_parse_error
    (fun _ => .error ()) (fun _ => .error ()) (fun _ => .error ())
    "<?xml version" 200 (by decide) (by decide) (by decide) rfl
  have hc : classify "<?xml version" = .xml := rfl
  rw [hc] at h
  exact h

/-- C2: for every body whose stripped text starts with the XML declaration
or the root-tag marker, `_handle_response` dispatches to the XML decoder,
and its whole behaviour is independent of the JSON and HTML decoders. -/
theorem c2_xml_marker_dispatches_to_xml_decoder
    (xmlDec htmlDec jsonDec htmlDec2 jsonDec2 : String → Except Unit JVal)
    (text : String) (status : Nat)
    (hx : stripStartsWith text "<?xml" = true ∨ stripStartsWith text "<root" = true) :
    (handle_response xmlDec htmlDec jsonDec text status).decoderUsed = some .xml ∧
    handle_response xmlDec htmlDec jsonDec text status =
      handle_response xmlDec htmlDec2 jsonDec2 text status := by
  have hcl : classify text = .xml := by
    unfold classify
    rcases hx with h | h <;> simp [h]
  constructor
  · unfold handle_response
    rw [hcl]
  · unfold handle_response
    rw [hcl, selectedDecode_eq_xml xmlDec htmlDec jsonDec text hcl,
      selectedDecode_eq_xml xmlDec htmlDec2 jsonDec2 text hcl]

/-- Witness for C2 at a concrete input (two decoder pairs that disagree
everywhere). -/
theorem c2_xml_marker_dispatches_to_xml_decoder_witness :
    (handle_response (fun _ => .ok (.jobj [("a", .jint 1)])) (fun _ => .error ())
      (fun _ => .error ()) " <root>x</root>" 200).decoderUsed = some .xml ∧
    handle_response (fun _ => .ok (.jobj [("a", .jint 1)])) (fun _ => .error ())
      (fun _ => .error ()) " <root>x</root>" 200 =
    handle_response (fun _ => .ok (.jobj [("a", .jint 1)])) (fun _ => .ok (.jstr "h"))
      (fun _ => .ok (.jstr "n")) " <root>x</root>" 200 :=
  c2_xml_marker_dispatches_to_xml_decoder
    (fun _ => .ok (.jobj [("a", .jint 1)])) (fun _ => .error ()) (fun _ => .error ())
    (fun _ => .ok (.jstr "h")) (fun _ => .ok (.jstr "n"))
    " <root>x</root>" 200 (Or.inr (by decide))

/-- C5: for every body whose stripped text starts with none of the four
markers, `_handle_response` returns the raw text as a success immediately,
for every status (including 4xx and 5xx), with no decoder invoked and the
session left open. -/
theorem c5_passthrough_returns_text_before_status_policy
    (xmlDec htmlDec jsonDec : String → Except Unit JVal) (text : String) (status : Nat)
    (h1 : stripStartsWith text "<?xml" = false)
    (h2 : stripStartsWith text "<root" = false)
    (h3 : stripStartsWith text "<HTML>" = false)
    (h4 : stripStartsWith text "\x7b" = false) :
    handle_response xmlDec htmlDec jsonDec text status =
      ⟨.ret (.jstr text), none, false⟩ := by
  have hcl : classify text = .passthrough := by
    unfold classify
    simp [h1, h2, h3, h4]
  unfold handle_response
  rw [hcl]

/-- Witness for C5 at a concrete input: a plain "true" body with a 500
status is returned as success, with the session left open. -/
theorem c5_passthrough_returns_text_before_status_policy_witness :
    handle_response (fun _ => .error ()) (fun _ => .error ()) (fun _ => .error ())
      "true" 500 = ⟨.ret (.jstr "true"), none, false⟩ :=
  c5_passthrough_returns_text_before_status_policy
    (fun _ => .error ()) (fun _ => .error ()) (fun _ => .error ())
    "true" 500 (by decide) (by decide) (by decide) (by decide)

/-- Counterexample to C3 as stated: (a) a 404 response with the plain-text
body "true" is returned as a success, no error carrying 404 is raised at
all; (b) a 404 response whose JSON body decodes to
`\x7b"error": "bad"\x7d` (so `json.loads` succeeds but
`parsed_data.get("error", \x7b\x7d).get(...)` hits a string) escapes with an
`AttributeError` instead of an error carrying status 404. -/
theorem c3_counterexample :
    (handle_response (fun _ => .error ()) (fun _ => .error ()) (fun _ => .error ())
      "true" 404 = ⟨.ret (.jstr "true"), none, false⟩) ∧
    (handle_response (fun _ => .error ()) (fun _ => .error ())
        (fun _ => .ok (.jobj [("error", .jstr "bad")]))
        "\x7b\"error\": \"bad\"\x7d" 404 =
      ⟨.pyExn .attributeError, some .json, false⟩) :=
  ⟨rfl, rfl⟩

/-- C3 amended: for every 4xx response whose body selects a decoder and
for which extracting the error message/code from the parsed payload does
not itself raise, `_handle_response` raises an error whose status equals
the original HTTP status exactly and whose detail is the parsed body. -/
theorem c3_4xx_error_keeps_original_status
    (xmlDec htmlDec jsonDec : String → Except Unit JVal) (text : String) (status : Nat)
    (m c : JVal)
    (hcl : classify text ≠ .passthrough)
    (hlo : 400 ≤ status) (hhi : status < 500)
    (hex : extractMsgCode (parsedDataOf xmlDec htmlDec jsonDec text) status = .ok (m, c)) :
    handle_response xmlDec htmlDec jsonDec text status =
      ⟨.httpExc status (parsedDataOf xmlDec htmlDec jsonDec text),
        some (classify text), true⟩ := by
  have h200 : ¬(200 ≤ status ∧ status < 300) := by omega
  simp only [parsedDataOf] at hex
  unfold handle_response
  cases hc : classify text with
  | passthrough => exact absurd hc hcl
  | xml => simp [parsedDataOf, h200, hex, hlo, hhi]
  | html => simp [parsedDataOf, h200, hex, hlo, hhi]
  | json => simp [parsedDataOf, h200, hex, hlo, hhi]

/-- Witness for the amended C3 at a concrete input. -/
theorem c3_4xx_error_keeps_original_status_witness :
    handle_response (fun _ => .error ()) (fun _ => .error ()) (fun _ => .error ())
      "<root" 404 =
      ⟨.httpExc 404 (parsedDataOf (fun _ => .error ()) (fun _ => .error ())
        (fun _ => .error ()) "<root"), some (classify "<root"), true⟩ :=
  c3_4xx_error_keeps_original_status
    (fun _ => .error ()) (fun _ => .error ()) (fun _ => .error ())
    "<root" 404 (.jstr "Parsing error") (.jstr "404")
    (by decide) (by decide) (by decide) rfl

/-- Counterexample to C4 as stated: (a) a 500 response with the plain-text
body "true" is returned as a success, so no translated error is surfaced
at all; (b) a 500 response whose JSON body decodes to
`\x7b"error": "bad"\x7d` escapes with an `AttributeError` rather than the
translated 501 error. -/
theorem c4_counterexample :
    (handle_response (fun _ => .error ()) (fun _ => .error ()) (fun _ => .error ())
      "true" 500 = ⟨.ret (.jstr "true"), none, false⟩) ∧
    (handle_response (fun _ => .error ()) (fun _ => .error ())
        (fun _ => .ok (.jobj [("error", .jstr "bad")]))
        "\x7b\"error\": \"bad\"\x7d" 500 =
      ⟨.pyExn .attributeError, some .json, false⟩) :=
  ⟨rfl, rfl⟩

/-- C4 amended: for every response with status ≥ 500 whose body selects a
decoder and for which the error message/code extraction succeeds with
values `(m, c)` (the code's defaults being "Unknown error" and the
stringified status), the surfaced error is the `IntegrationAPIError`
carrying the single fixed translated status 501 — never the original
status — with the extracted message interpolated into its text and the
extracted code as its error code. -/
theorem c4_5xx_error_translated_to_501
    (xmlDec htmlDec jsonDec : String → Except Unit JVal) (text : String) (status : Nat)
    (m c : JVal)
    (hcl : classify text ≠ .passthrough)
    (hs : 500 ≤ status)
    (hex : extractMsgCode (parsedDataOf xmlDec htmlDec jsonDec text) status = .ok (m, c)) :
    handle_response xmlDec htmlDec jsonDec text status =
      ⟨.apiErr "ecw" ("Downstream server error (translated to HTTP 501): " ++ pyStr m)
        501 c, some (classify text), true⟩ := by
  have h200 : ¬(200 ≤ status ∧ status < 300) := by omega
  have h400 : ¬(400 ≤ status ∧ status < 500) := by omega
  simp only [parsedDataOf] at hex
  unfold handle_response
  cases hc : classify text with
  | passthrough => exact absurd hc hcl
  | xml => simp [h200, h400, hex, hs]
  | html => simp [h200, h400, hex, hs]
  | json => simp [h200, h400, hex, hs]

/-- Witness for the amended C4 at a concrete input: a 503 with an
undecodable XML body surfaces as the fixed 501 with the default message
"Parsing error" extracted from the degraded payload and the stringified
original status as code. -/
theorem c4_5xx_error_translated_to_501_witness :
    handle_response (fun _ => .error ()) (fun _ => .error ()) (fun _ => .error ())
      "<?xml v" 503 =
      ⟨.apiErr "ecw" "Downstream server error (translated to HTTP 501): Parsing error"
        501 (.jstr "503"), some (classify "<?xml v"), true⟩ := by
  have h := c4_5xx_error_translated_to_501
    (fun _ => .error ()) (fun _ => .error ()) (fun _ => .error ())
    "<?xml v" 503 (.jstr "Parsing error") (.jstr "503")
    (by decide) (by decide) rfl
  simpa using h

/-- An environment answering every request with the same parsed value. -/
def constEnv (v : JVal) : Env := ⟨fun _ => .ok v⟩

/-- The `finally` wrapper closes the session whatever the body did. -/
theorem runFlow_sessionClosed {α : Type} (m : FlowM α) :
    (runFlow m).sessionClosed = true := by
  unfold runFlow
  cases m [] <;> rfl

/-- C10: every public orchestrator flow closes the client session on every
exit path — for every environment (hence under success, validation
failure, or a raised transport/HTTP error at any step) and every input,
the session is closed when the flow finishes. -/
theorem c10_every_flow_closes_session :
    (∀ (table : List VisitTypeEntry) (tru : String) (env : Env) (req : AppointmentRequest),
      (create_appointment table tru env req).sessionClosed = true) ∧
    (∀ (env : Env) (today : String) (req : GetAppointmentsRequest),
      (get_appointments env today req).sessionClosed = true) ∧
    (∀ (env : Env) (rd : AddSurgicalAndHospitilizationItemsRequest),
      (update_history_add_only env rd).sessionClosed = true) ∧
    (∀ (env : Env) (rd : AddFamilyHistoryNoteRequest),
      (add_family_history_note env rd).sessionClosed = true) ∧
    (∀ (env : Env) (rd : AddSocialHistoryNoteRequest),
      (add_social_history_note env rd).sessionClosed = true) ∧
    (∀ (env : Env) (searchText nLimit : String),
      (search_allergies env searchText nLimit).sessionClosed = true) ∧
    (∀ (env : Env) (rd : UpdateMedHxAllergyRequest),
      (update_med_hx_and_allergies env rd).sessionClosed = true) := by
  refine ⟨?_, ?_, ?_, ?_, ?_, ?_, ?_⟩
  · intro table tru env req
    unfold create_appointment
    exact runFlow_sessionClosed _
  · intro env today req
    unfold get_appointments
    exact runFlow_sessionClosed _
  · intro env rd
    unfold update_history_add_only
    exact runFlow_sessionClosed _
  · intro env rd
    unfold add_family_history_note
    exact runFlow_sessionClosed _
  · intro env rd
    unfold add_social_history_note
    exact runFlow_sessionClosed _
  · intro env searchText nLimit
    unfold search_allergies
    exact runFlow_sessionClosed _
  · intro env rd
    unfold update_med_hx_and_allergies
    exact runFlow_sessionClosed _

/-- C8: a batch request with no new surgical and no new hospitalization
items returns the fixed no-op message, with an empty request trace: no
history fetch and no batch POST are issued. -/
theorem c8_empty_history_request_is_local_noop (env : Env)
    (rd : AddSurgicalAndHospitilizationItemsRequest)
    (hs : rd.new_surgical_items = []) (hh : rd.new_hospitalization_items = []) :
    update_history_add_only env rd =
      ⟨.ok (.jobj [("message", .jstr "No new history items to add.")]), [], true⟩ := by
  obtain ⟨e, p, s, h⟩ := rd
  simp only at hs hh
  subst hs
  subst hh
  rfl

/-- Witness for C8 at a concrete input. -/
theorem c8_empty_history_request_is_local_noop_witness :
    update_history_add_only (constEnv .jnull) ⟨"enc8", "pat8", [], []⟩ =
      ⟨.ok (.jobj [("message", .jstr "No new history items to add.")]), [], true⟩ :=
  c8_empty_history_request_is_local_noop (constEnv .jnull) ⟨"enc8", "pat8", [], []⟩ rfl rfl

/-- C9 (code bug in the source): with `medical_history_text = None` the
always-built two-entry flags batch is never submitted — the flow crashes
with Python `UnboundLocalError` (`headers_direct_post` is assigned only
inside the medical-history branch, lines 1010-1013, yet read at the
flags-batch call, line 1082) and issues no request at all, against the
claim that the flag batch is always submitted as one outer call. -/
theorem c9_flags_batch_crashes_without_medhx_text :
    update_med_hx_and_allergies (constEnv .jnull) ⟨"enc9", "pat9", none, []⟩ =
      ⟨.error (.pyErr .nameError), [], true⟩ := rfl

/-- Do-notation bind on `FlowM` is `FlowM.bind`. -/
theorem flow_bind_def {α β : Type} (m : FlowM α) (f : α → FlowM β) :
    (m >>= f) = FlowM.bind m f := rfl

/-- Do-notation pure on `FlowM` is `FlowM.pure`. -/
theorem flow_pure_def {α : Type} (a : α) : (pure a : FlowM α) = FlowM.pure a := rfl

/-- Do-notation bind on `Except`, success case. -/
theorem except_bind_ok {ε α β : Type} (a : α) (f : α → Except ε β) :
    (Except.ok a >>= f) = f a := rfl

/-- Do-notation bind on `Except`, error case. -/
theorem except_bind_error {ε α β : Type} (e : ε) (f : α → Except ε β) :
    ((Except.error e : Except ε α) >>= f) = Except.error e := rfl

/-- Do-notation pure on `Except`. -/
theorem except_pure_def {ε α : Type} (a : α) :
    (pure a : Except ε α) = Except.ok a := rfl

/-- C6: with existing surgical-history items carrying display indices
1, 3, 2 and two new items, the single batch POST issued by
`update_history_add_only` carries the merged list: the three existing
dicts unaltered, followed by the new items with display indices 4 and 5
(max of existing plus sequential increments). -/
theorem c6_merged_new_items_get_indices_4_and_5 (env : Env) (enc pat : String)
    (r1 d1 r2 d2 r3 d3 : String) (n1 n2 : NewHistoryItem)
    (hresp : env.respond (.getSurgicalHistory enc) =
      .ok (.jobj [("surgical_history", .jarr
        [.jobj [("reason", .jstr r1), ("date", .jstr d1), ("displayIndex", .jstr "1")],
         .jobj [("reason", .jstr r2), ("date", .jstr d2), ("displayIndex", .jstr "3")],
         .jobj [("reason", .jstr r3), ("date", .jstr d3), ("displayIndex", .jstr "2")]])])) :
    (update_history_add_only env ⟨enc, pat, [n1, n2], []⟩).requests =
      [.getSurgicalHistory enc,
       .batchPost
        [⟨"set_surgical_history", .historyFormData
           [.jobj [("reason", .jstr r1), ("date", .jstr d1), ("displayIndex", .jstr "1")],
            .jobj [("reason", .jstr r2), ("date", .jstr d2), ("displayIndex", .jstr "3")],
            .jobj [("reason", .jstr r3), ("date", .jstr d3), ("displayIndex", .jstr "2")],
            .jobj [("reason", .jstr n1.reason), ("date", .jstr n1.date),
                   ("cptcode", .jstr (cptOrEmpty n1.cptcode)), ("displayIndex", .jstr "4")],
            .jobj [("reason", .jstr n2.reason), ("date", .jstr n2.date),
                   ("cptcode", .jstr (cptOrEmpty n2.cptcode)), ("displayIndex", .jstr "5")]]
           "surgical"⟩,
         ⟨"set_encounter_details", .encounterFlag enc "Surgical History" true⟩]] := by
  unfold update_history_add_only runFlow
  simp only [flow_bind_def, flow_pure_def]
  simp +decide [FlowM.bind, FlowM.pure, doRequest, liftPy, attempt, raiseF, hresp, pyGet,
    pyIter, pySubscript, pyInt, pyIntOfString, pyStripChars, dropLeadingSpace, isPySpace,
    digitsToNat, pyTruthy, scanMaxIdx, newSurgicalDicts, newHospDicts, cptOrEmpty,
    List.lookup, except_bind_ok, except_bind_error, except_pure_def]
  split
  all_goals
    rename_i a tr2 heq
    split at heq
    all_goals cases heq
    all_goals rfl

/-- Concrete surgical-history response used by the C6 witness. -/
def c6Resp : JVal :=
  .jobj [("surgical_history", .jarr
    [.jobj [("reason", .jstr "appendectomy"), ("date", .jstr "01/02/2010"),
            ("displayIndex", .jstr "1")],
     .jobj [("reason", .jstr "tonsillectomy"), ("date", .jstr "03/04/2011"),
            ("displayIndex", .jstr "3")],
     .jobj [("reason", .jstr "bypass"), ("date", .jstr "05/06/2012"),
            ("displayIndex", .jstr "2")]])]

/-- Witness for C6 at a concrete input. -/
theorem c6_merged_new_items_get_indices_4_and_5_witness :
    (update_history_add_only (constEnv c6Resp)
      ⟨"enc6", "pat6",
        [⟨"laser", "07/08/2020", none⟩, ⟨"stent", "09/10/2021", some "33010"⟩], []⟩).requests =
      [.getSurgicalHistory "enc6",
       .batchPost
        [⟨"set_surgical_history", .historyFormData
           [.jobj [("reason", .jstr "appendectomy"), ("date", .jstr "01/02/2010"),
                   ("displayIndex", .jstr "1")],
            .jobj [("reason", .jstr "tonsillectomy"), ("date", .jstr "03/04/2011"),
                   ("displayIndex", .jstr "3")],
            .jobj [("reason", .jstr "bypass"), ("date", .jstr "05/06/2012"),
                   ("displayIndex", .jstr "2")],
            .jobj [("reason", .jstr "laser"), ("date", .jstr "07/08/2020"),
                   ("cptcode", .jstr ""), ("displayIndex", .jstr "4")],
            .jobj [("reason", .jstr "stent"), ("date", .jstr "09/10/2021"),
                   ("cptcode", .jstr "33010"), ("displayIndex", .jstr "5")]]
           "surgical"⟩,
         ⟨"set_encounter_details", .encounterFlag "enc6" "Surgical History" true⟩]] :=
  c6_merged_new_items_get_indices_4_and_5 (constEnv c6Resp) "enc6" "pat6"
    "appendectomy" "01/02/2010" "tonsillectomy" "03/04/2011" "bypass" "05/06/2012"
    ⟨"laser", "07/08/2020", none⟩ ⟨"stent", "09/10/2021", some "33010"⟩ rfl

/-- The appointment write requests (create-new or update-in-place POST). -/
def isApptWrite : ReqKind → Bool
  | .postAppointmentCreate _ => true
  | .postAppointmentUpdate _ _ => true
  | _ => false

/-- No appointment write occurs anywhere in a trace. -/
def noApptWrite (tr : Trace) : Bool := tr.all (fun r => !isApptWrite r)

/-- C7: when the preceding steps succeed (patient found, valid date, form
GET ok, facility found) but the provider lookup yields no match,
`create_appointment` aborts with the 404 "Provider not found" error after
exactly four requests — payload construction is never reached and no POST
to the create- or update-appointment endpoint is ever issued. -/
theorem c7_missing_provider_aborts_before_write
    (visitTable : List VisitTypeEntry) (tru : String) (env : Env) (req : AppointmentRequest)
    (presp fv fresp prsp pid : JVal) (fac : JVal × JVal)
    (h1 : env.respond (.getPatientsReq (firstPiece (pySplitComma req.patient_name))
            (lastPiece (pySplitComma req.patient_name))) = .ok presp)
    (h2 : extract_patient_id presp = .ok (some pid))
    (h3 : strptimeValidMDY req.date = true)
    (h4 : env.respond .getApptForm = .ok fv)
    (h5 : env.respond .getFacilitiesReq = .ok fresp)
    (h6 : validate_facilities fresp req.facility_name = .ok (some fac))
    (h7 : env.respond (.getProviderReq (strLower req.provider)) = .ok prsp)
    (h8 : validate_provider prsp = .ok none) :
    create_appointment visitTable tru env req =
      ⟨.error (.http 404 (.jobj [("message", .jstr "Provider not found")])),
       [.getPatientsReq (firstPiece (pySplitComma req.patient_name))
          (lastPiece (pySplitComma req.patient_name)),
        .getApptForm, .getFacilitiesReq, .getProviderReq (strLower req.provider)],
       true⟩ ∧
    noApptWrite (create_appointment visitTable tru env req).requests = true := by
  have main : create_appointment visitTable tru env req =
      ⟨.error (.http 404 (.jobj [("message", .jstr "Provider not found")])),
       [.getPatientsReq (firstPiece (pySplitComma req.patient_name))
          (lastPiece (pySplitComma req.patient_name)),
        .getApptForm, .getFacilitiesReq, .getProviderReq (strLower req.provider)],
       true⟩ := by
    unfold create_appointment runFlow
    simp only [flow_bind_def, flow_pure_def]
    simp [FlowM.bind, FlowM.pure, doRequest, liftPy, raiseF, h1, h2, h3, h4, h5, h6, h7, h8]
  refine ⟨main, ?_⟩
  rw [main]
  rfl

/-- Environment for the C7 witness: one matching patient, one matching
facility, and a provider lookup whose result list is empty. -/
def c7Env : Env :=
  ⟨fun r =>
    match r with
    | .getPatientsReq _ _ => .ok (.jobj [("patients", .jarr [.jobj [("id", .jint 77)]])])
    | .getFacilitiesReq => .ok (.jobj [("facilities", .jarr
        [.jobj [("Name", .jstr "Main Clinic"), ("Id", .jint 5), ("POS", .jstr "11")]])])
    | .getProviderReq _ => .ok (.jobj [("result", .jarr [])])
    | _ => .ok .jnull⟩

/-- Appointment request for the C7 witness. -/
def c7Req : AppointmentRequest :=
  ⟨"Doe, Jane", "Main Clinic", "02/14/2025", "09:00 am", "09:30 am", "Dr Strange", none,
   none, "checkup", none, "Office Visit", "PEN", none⟩

/-- Witness for C7 at a concrete input. -/
theorem c7_missing_provider_aborts_before_write_witness :
    create_appointment [] "user7" c7Env c7Req =
      ⟨.error (.http 404 (.jobj [("message", .jstr "Provider not found")])),
       [.getPatientsReq "Doe" " Jane", .getApptForm, .getFacilitiesReq,
        .getProviderReq "dr strange"],
       true⟩ ∧
    noApptWrite (create_appointment [] "user7" c7Env c7Req).requests = true :=
  c7_missing_provider_aborts_before_write [] "user7" c7Env c7Req
    (.jobj [("patients", .jarr [.jobj [("id", .jint 77)]])]) .jnull
    (.jobj [("facilities", .jarr
      [.jobj [("Name", .jstr "Main Clinic"), ("Id", .jint 5), ("POS", .jstr "11")]])])
    (.jobj [("result", .jarr [])]) (.jint 77) (.jint 5, .jstr "11")
    rfl rfl rfl rfl rfl rfl rfl rfl
